import Mathlib

/-!
Verification of the morido (soil-embankment) regulation checker
(`streamlit_app.py`): the jurisdiction rule table, jurisdiction
resolution, the rule evaluator, the text extractors (modelled regex
searches), and the DXF area accumulation.  Python floats are modelled
as exact rationals, Python strings as Lean strings (lists of chars),
raised exceptions of fallible sub-operations as `Option`/`none`.
-/

set_option maxRecDepth 10000

/-- One jurisdiction's rule set, mirroring an entry of the `guidelines`
dictionary.  Thresholds are Python int literals, hence `Int`. -/
structure RuleSet where
  area_threshold : Int
  height_threshold : Int
  permit_required_text : String
  no_permit_text : String
  page_line_info : String
  procedure : String
deriving DecidableEq, Repr

/-- The `"Fukuoka Prefecture"` entry of `guidelines`. -/
def fukuokaRS : RuleSet :=
  { area_threshold := 500
    height_threshold := 2
    permit_required_text := "許可が必要：盛土の高さ2m以上または面積500㎡以上の場合は許可申請が必要です。"
    no_permit_text := "許可不要：高さ2m未満かつ面積500㎡未満の場合は許可不要です。"
    page_line_info := "手引きP10 L5-L10"
    procedure := "窓口：福岡県、提出書類：盛土許可申請書、審査日数：約30日、手数料：無料" }

/-- The `"大牟田市"` entry of `guidelines`. -/
def omutaRS : RuleSet :=
  { area_threshold := 500
    height_threshold := 2
    permit_required_text := "許可が必要：大牟田市手引き第4条参照。高さ2m以上または面積500㎡以上は許可申請が必要。"
    no_permit_text := "許可不要：高さ・面積が基準未満である場合、届出のみ又は不要。"
    page_line_info := "手引きP4 L3-L8"
    procedure := "窓口：大牟田市、書類：盛土行為許可申請書、審査期間：14日、手数料：無料" }

/-- The module-level `guidelines` dict; a Python dict preserves
insertion order, so it is modelled as an association list in source
order. -/
def guidelines : List (String × RuleSet) :=
  [("Fukuoka Prefecture", fukuokaRS), ("大牟田市", omutaRS)]

/-- The `data` dict handed to `evaluate_file`: each fact is optional
(`None` when extraction and manual entry produced nothing). -/
structure FactsData where
  geoname : Option String
  area : Option ℚ
  height : Option ℚ
deriving DecidableEq, Repr

/-- `listPrefixOf n h = true` iff `n` is a prefix of `h` (helper for
Python's substring operator). -/
def listPrefixOf : List Char → List Char → Bool
  | [], _ => true
  | _ :: _, [] => false
  | a :: as, b :: bs => a = b && listPrefixOf as bs

/-- `listContains h n = true` iff `n` occurs contiguously inside `h`. -/
def listContains : List Char → List Char → Bool
  | [], needle => listPrefixOf needle []
  | h :: t, needle => listPrefixOf needle (h :: t) || listContains t needle

/-- Python's `needle in hay` on strings. -/
def strIn (needle hay : String) : Bool := listContains hay.data needle.data

/-- The key-scanning loop of `evaluate_file` lines 147-150:
`for key in guidelines.keys(): if key in geoname: jurisdiction = key; break`,
with `j` the current value of the `jurisdiction` variable. -/
def loopKeys : List String → String → String → String
  | [], _, j => j
  | k :: ks, s, j => if strIn k s then k else loopKeys ks s j

/-- Lines 144-150 of `evaluate_file`: default `"Fukuoka Prefecture"`,
overwritten by the first configured key that is a substring of a truthy
geoname (`None` and `""` are falsy). -/
def resolveJurisdiction (gl : List (String × RuleSet)) (geoname : Option String) : String :=
  match geoname with
  | none => "Fukuoka Prefecture"
  | some s => if s = "" then "Fukuoka Prefecture" else loopKeys (gl.map Prod.fst) s "Fukuoka Prefecture"

/-- `guidelines.get(jurisdiction, guidelines["Fukuoka Prefecture"])`
(line 151). -/
def lookupRuleSet (gl : List (String × RuleSet)) (j : String) : RuleSet :=
  match gl.find? (fun kv => kv.1 = j) with
  | some kv => kv.2
  | none => fukuokaRS

/-- The result dict built by `evaluate_file` (keys 申請区分, 改善案,
不足情報). -/
structure EvalResult where
  kubun : String
  kaizen : Option String
  fusoku : Option String
deriving DecidableEq, Repr

/-- The area-reduction suggestion f-string of line 169. -/
def areaSuggestion (g : RuleSet) : String :=
  "造成面積を " ++ toString g.area_threshold ++ "㎡ 未満に縮小する"

/-- The height-reduction suggestion f-string of line 171. -/
def heightSuggestion (g : RuleSet) : String :=
  "盛土高さを " ++ toString g.height_threshold ++ "m 未満に抑える"

/-- The `suggestions` local list of the permit branch (lines 167-171):
append the area suggestion when the area threshold is met, then the
height suggestion when the height threshold is met. -/
def permitSuggestions (g : RuleSet) (a h : ℚ) : List String :=
  (if a ≥ (g.area_threshold : ℚ) then [areaSuggestion g] else []) ++
  (if h ≥ (g.height_threshold : ℚ) then [heightSuggestion g] else [])

/-- The `missing_info` list of lines 153-159: a field counts missing when
`None`, and also when `== ""` (geoname) or `== 0` (area, height). -/
def missingInfo (data : FactsData) : List String :=
  (if data.geoname = none ∨ data.geoname = some "" then ["地名"] else []) ++
  (if data.area = none ∨ data.area = some 0 then ["面積"] else []) ++
  (if data.height = none ∨ data.height = some 0 then ["高さ"] else [])

/-- `evaluate_file` (lines 140-178).  The `getD 0` defaults are
unreachable: the threshold branch runs only when `missingInfo` is empty,
which forces `area` and `height` to be `some` of a nonzero rational. -/
def evaluate_file (gl : List (String × RuleSet)) (data : FactsData) : EvalResult :=
  let g := lookupRuleSet gl (resolveJurisdiction gl data.geoname)
  let missing_info := missingInfo data
  if missing_info ≠ [] then
    { kubun := "情報不足", kaizen := none,
      fusoku := some (String.intercalate "、" missing_info ++ "の情報が不足しています") }
  else
    let a := data.area.getD 0
    let h := data.height.getD 0
    if a ≥ (g.area_threshold : ℚ) ∨ h ≥ (g.height_threshold : ℚ) then
      let suggestions := permitSuggestions g a h
      { kubun := "許可申請",
        kaizen := if suggestions ≠ [] then some (String.intercalate "／" suggestions) else none,
        fusoku := none }
    else
      { kubun := "不要または届出", kaizen := none, fusoku := none }

/-- State-passing form of `evaluate_file`: the guidelines mapping is an
input and is also returned, so that the frame property "evaluation does
not modify the rule table" is statable.  The Python body only ever reads
`guidelines` (`keys()`, `get`), so the final state is the initial one. -/
def evaluate_file_run (gl : List (String × RuleSet)) (data : FactsData) :
    EvalResult × List (String × RuleSet) :=
  (evaluate_file gl data, gl)

/-- Python's `\s` character class on `str` (the whitespace code points
recognised by `re` in Unicode mode).  All of them lie at or below
U+3000. -/
def isSpaceCh (c : Char) : Bool :=
  c.toNat ≤ 0x3000 &&
    (c.toNat ∈ [0x20, 0x9, 0xa, 0xd, 0xb, 0xc, 0x1c, 0x1d, 0x1e, 0x1f, 0x85, 0xa0,
      0x1680, 0x2000, 0x2001, 0x2002, 0x2003, 0x2004, 0x2005, 0x2006, 0x2007,
      0x2008, 0x2009, 0x200a, 0x2028, 0x2029, 0x202f, 0x205f, 0x3000])

/-- The character class `[\d,.]` of the number patterns (ASCII digits
suffice for the inputs at hand). -/
def isNumCh (c : Char) : Bool := c.isDigit || c = ',' || c = '.'

/-- The CJK-ideograph class `[一-鿿]` of the geoname fallback
pattern. -/
def isCJKCh (c : Char) : Bool := 0x4e00 ≤ c.toNat && c.toNat ≤ 0x9fff

/-- Python's `str.strip()`: remove leading and trailing whitespace. -/
def pyStrip (cs : List Char) : List Char :=
  ((cs.dropWhile isSpaceCh).reverse.dropWhile isSpaceCh).reverse

/-- `re.search(r'([\d,.]+)\s*(?:㎡|m2)', text)`, returning group 1.  At
each start position the matcher takes the maximal `[\d,.]` run, skips
whitespace, and requires the unit; no backtracking can succeed because
the unit characters and whitespace are disjoint from `[\d,.]`. -/
def searchAreaNum : List Char → Option (List Char)
  | [] => none
  | c :: cs =>
    if isNumCh c then
      match (cs.dropWhile isNumCh).dropWhile isSpaceCh with
      | '㎡' :: _ => some (c :: cs.takeWhile isNumCh)
      | 'm' :: '2' :: _ => some (c :: cs.takeWhile isNumCh)
      | _ => searchAreaNum cs
    else searchAreaNum cs

/-- `re.search(r'([\d,.]+)\s*m', text)`, returning group 1 (same
maximal-munch argument as for the area pattern). -/
def searchHeightNum : List Char → Option (List Char)
  | [] => none
  | c :: cs =>
    if isNumCh c then
      match (cs.dropWhile isNumCh).dropWhile isSpaceCh with
      | 'm' :: _ => some (c :: cs.takeWhile isNumCh)
      | _ => searchHeightNum cs
    else searchHeightNum cs

/-- `re.search(label + r'[:：]\s*([^\s,\n]+)', text)`, returning group 1:
find the label, a half- or full-width colon, optional whitespace, then a
nonempty maximal run of characters that are neither whitespace nor a
comma; on failure resume the search one position further right. -/
def searchLabeled (label : List Char) : List Char → Option (List Char)
  | [] => none
  | c :: cs =>
    if listPrefixOf label (c :: cs) then
      match (c :: cs).drop label.length with
      | k :: rest =>
        if k = ':' ∨ k = '：' then
          match (rest.dropWhile isSpaceCh).takeWhile (fun ch => !isSpaceCh ch && ch ≠ ',') with
          | [] => searchLabeled label cs
          | v :: vs => some (v :: vs)
        else searchLabeled label cs
      | [] => searchLabeled label cs
    else searchLabeled label cs

/-- `re.search(r'([一-鿿]+市[一-鿿]*)', text)`, returning
group 1.  At a CJK start position the greedy `[一-鿿]+` takes the
whole run and backtracks to the rightmost 市 strictly inside it; the
trailing star then re-extends to the run's end, so a position matches iff
the run suffix starting there contains 市 after its first character, and
the group is that whole run suffix. -/
def cjkScan : List Char → Option (List Char)
  | [] => none
  | c :: cs =>
    if isCJKCh c then
      if (cs.takeWhile isCJKCh).contains '市' then some (c :: cs.takeWhile isCJKCh)
      else cjkScan cs
    else cjkScan cs

/-- Value of a digit string (most significant first). -/
def digitsVal (cs : List Char) : ℕ :=
  cs.foldl (fun n c => 10 * n + (c.toNat - '0'.toNat)) 0

/-- Python `float()` restricted to strings of digits and periods (the
only characters a matched group can still hold after commas are
removed): at most one period and at least one digit, else a
`ValueError`, modelled as `none`. -/
def pyFloat (cs : List Char) : Option ℚ :=
  match cs.splitOn '.' with
  | [a] => if a ≠ [] ∧ a.all Char.isDigit then some (digitsVal a) else none
  | [a, b] =>
    if (a ≠ [] ∨ b ≠ []) ∧ a.all Char.isDigit ∧ b.all Char.isDigit then
      some ((digitsVal a : ℚ) + (digitsVal b : ℚ) / (10 ^ b.length : ℚ))
    else none
  | _ => none

/-- `extract_geoname_from_text` (lines 51-64): the three labelled
patterns in priority order, then the CJK fallback, each stripped. -/
def extract_geoname_from_text (t : String) : Option String :=
  match searchLabeled "地名".data t.data with
  | some v => some (String.mk (pyStrip v))
  | none =>
    match searchLabeled "所在地".data t.data with
    | some v => some (String.mk (pyStrip v))
    | none =>
      match searchLabeled "対象地".data t.data with
      | some v => some (String.mk (pyStrip v))
      | none =>
        match cjkScan t.data with
        | some r => some (String.mk (pyStrip r))
        | none => none

/-- `extract_area_from_text` (lines 67-75): number-before-area-unit
search, commas removed, `float()` failure caught to `None`. -/
def extract_area_from_text (t : String) : Option ℚ :=
  match searchAreaNum t.data with
  | some g => pyFloat (g.filter (fun c => c ≠ ','))
  | none => none

/-- `extract_height_from_text` (lines 78-85). -/
def extract_height_from_text (t : String) : Option ℚ :=
  match searchHeightNum t.data with
  | some g => pyFloat (g.filter (fun c => c ≠ ','))
  | none => none

/-- `parse_pdf` (lines 88-106).  The pdfplumber interaction is a black
box producing the concatenated page text; `none` stands for the
`pdfplumber is None` / exception cases, in which all three facts stay
`None`. -/
def parse_pdf (txt : Option String) : Option String × Option ℚ × Option ℚ :=
  match txt with
  | none => (none, none, none)
  | some text =>
    (extract_geoname_from_text text, extract_area_from_text text, extract_height_from_text text)

/-- A DXF modelspace entity as `parse_dxf` inspects it.  A hatch carries
the `path.area` of each boundary path, a polyline its `closed` flag and
its `area()`; `none` marks a query that raises. -/
inductive DxfEntity where
  | hatch (paths : List (Option ℚ))
  | lwpolyline (closed : Option Bool) (area : Option ℚ)
  | polyline (closed : Option Bool) (area : Option ℚ)
  | other
deriving DecidableEq, Repr

/-- The contribution of one polyline entity under the inner
`try: if e.closed: total_area += e.area()` (skip on a raising `closed`
or `area()`, skip open polylines). -/
def polyContribution (closed : Option Bool) (area : Option ℚ) : ℚ :=
  match closed, area with
  | some true, some q => q
  | _, _ => 0

/-- The `for e in msp` accumulation loop of `parse_dxf` (lines 118-132),
with `t` the running `total_area`; each hatch path is added inside its
own `try`. -/
def dxfLoop (t : ℚ) : List DxfEntity → ℚ
  | [] => t
  | .hatch ps :: es =>
    dxfLoop (ps.foldl (fun acc p => match p with | some a => acc + a | none => acc) t) es
  | .lwpolyline c a :: es => dxfLoop (t + polyContribution c a) es
  | .polyline c a :: es => dxfLoop (t + polyContribution c a) es
  | .other :: es => dxfLoop t es

/-- `parse_dxf` (lines 109-137).  `doc = none` covers the `ezdxf is
None` and `ezdxf.read` exception cases; otherwise the modelspace is the
given entity list, and the area is set only when the accumulated total
is positive. -/
def parse_dxf (doc : Option (List DxfEntity)) : Option String × Option ℚ × Option ℚ :=
  match doc with
  | none => (none, none, none)
  | some es =>
    let total := dxfLoop 0 es
    (none, if total > 0 then some total else none, none)

/-- The jurisdiction's rule set as `evaluate_file` resolves it for a
facts record: the composition of lines 144-151. -/
def ruleFor (d : FactsData) : RuleSet :=
  lookupRuleSet guidelines (resolveJurisdiction guidelines d.geoname)

/-- The per-row reason string built by `generate_pdf_report`
(lines 191-197).  The code indexes `guidelines[jurisdiction]` directly;
the jurisdiction stored in a result row is always a key of the table, so
the defaulting lookup model coincides with it. -/
def reportReason (file jurisdiction : String) (res : EvalResult) : String :=
  if res.kubun = "許可申請" then
    file ++ "は" ++ jurisdiction ++ "の基準により許可が必要です。"
      ++ (lookupRuleSet guidelines jurisdiction).permit_required_text
      ++ "根拠: " ++ (lookupRuleSet guidelines jurisdiction).page_line_info
  else if res.kubun = "不要または届出" then
    file ++ "は" ++ jurisdiction ++ "の基準により許可は不要または届出です。"
      ++ (lookupRuleSet guidelines jurisdiction).no_permit_text
      ++ "根拠: " ++ (lookupRuleSet guidelines jurisdiction).page_line_info
  else (res.fusoku).getD ""

/-- Spec-side jurisdiction resolution, following the specification's
words: the first configured entry (in insertion order) whose name is a
substring of a present geoname wins; a missing geoname, or one matching
no configured name, selects the default jurisdiction. -/
def specResolveName (gl : List (String × RuleSet)) (geoname : Option String) : String :=
  match geoname with
  | none => "Fukuoka Prefecture"
  | some s =>
    match gl.find? (fun kv => strIn kv.1 s) with
    | some kv => kv.1
    | none => "Fukuoka Prefecture"

/-- Spec-side resolved rule set: the rule set of the first matching
configured jurisdiction, defaulting to Fukuoka Prefecture's. -/
def specResolveRS (gl : List (String × RuleSet)) (geoname : Option String) : RuleSet :=
  match geoname with
  | none => fukuokaRS
  | some s =>
    match gl.find? (fun kv => strIn kv.1 s) with
    | some kv => kv.2
    | none => fukuokaRS

/-- Spec-side qualifying closed regions of one DXF entity: every hatch
boundary path whose area query succeeds, and every closed polyline whose
area query succeeds. -/
def qualifyingAreas : DxfEntity → List ℚ
  | .hatch ps => ps.filterMap id
  | .lwpolyline (some true) (some a) => [a]
  | .lwpolyline _ _ => []
  | .polyline (some true) (some a) => [a]
  | .polyline _ _ => []
  | .other => []

/-- Spec-side total: the sum of the areas of all qualifying closed
regions of the modelspace. -/
def specTotalArea (es : List DxfEntity) : ℚ := ((es.map qualifyingAreas).flatten).sum

/-- All suffixes of a list, longest first (the start positions a regex
search tries from left to right). -/
def allSuffixes : List Char → List (List Char)
  | [] => [[]]
  | c :: cs => (c :: cs) :: allSuffixes cs

/-- Whether the fallback pattern matches at a given start position: the
first character is a CJK ideograph and 市 occurs later within the CJK
run. -/
def goodStart : List Char → Bool
  | [] => false
  | c :: rest => isCJKCh c && (rest.takeWhile isCJKCh).contains '市'

/-- Spec-side geoname fallback: from the first (leftmost) position whose
CJK run-suffix contains 市 after its first character, return that whole
run-suffix. -/
def specCjk (cs : List Char) : Option (List Char) :=
  ((allSuffixes cs).find? goodStart).map (fun s => s.takeWhile isCJKCh)


lemma lookup_fukuoka : lookupRuleSet guidelines "Fukuoka Prefecture" = fukuokaRS := by decide

lemma lookup_omuta : lookupRuleSet guidelines "大牟田市" = omutaRS := by decide

/-- C4: jurisdiction resolution picks the first configured jurisdiction,
in the table's insertion order, whose name is a substring of a present
geoname; an absent geoname, or one containing no configured name,
selects the default jurisdiction Fukuoka Prefecture and its rule set. -/
theorem resolution_first_substring_match (geo : Option String) :
    resolveJurisdiction guidelines geo = specResolveName guidelines geo
    ∧ lookupRuleSet guidelines (resolveJurisdiction guidelines geo) = specResolveRS guidelines geo
    ∧ specResolveName guidelines none = "Fukuoka Prefecture" := by
  refine ⟨?_, ?_, rfl⟩ <;>
  · cases geo with
    | none => decide
    | some s =>
      by_cases hs : s = ""
      · subst hs; decide
      · cases h1 : strIn "Fukuoka Prefecture" s <;> cases h2 : strIn "大牟田市" s <;>
          simp [resolveJurisdiction, hs, guidelines, loopKeys, specResolveName, specResolveRS,
            lookupRuleSet, List.find?, h1, h2]

lemma missingInfo_eq_nil_iff (d : FactsData) :
    missingInfo d = [] ↔
      (d.geoname ≠ none ∧ d.geoname ≠ some "" ∧ d.area ≠ none ∧ d.area ≠ some 0
        ∧ d.height ≠ none ∧ d.height ≠ some 0) := by
  unfold missingInfo
  by_cases h1 : d.geoname = none ∨ d.geoname = some "" <;>
  by_cases h2 : d.area = none ∨ d.area = some 0 <;>
  by_cases h3 : d.height = none ∨ d.height = some 0 <;>
  simp [h1, h2, h3] <;> tauto

lemma kubun_of_missing {d : FactsData} (hm : missingInfo d ≠ []) :
    (evaluate_file guidelines d).kubun = "情報不足" := by
  simp [evaluate_file, hm]

lemma kubun_of_not_missing {d : FactsData} (hm : missingInfo d = []) :
    (evaluate_file guidelines d).kubun ≠ "情報不足" := by
  simp [evaluate_file, hm]
  split <;> simp

/-- C1 (counterexample): a facts record with geoname, area, height all
present (`None` nowhere) but area equal to 0 is still classified
情報不足 (insufficient_info), refuting "insufficient_info only if some
field is missing". -/
theorem insufficient_despite_all_present :
    (evaluate_file guidelines ⟨some "福岡県", some 0, some 3⟩).kubun = "情報不足"
    ∧ (some "福岡県" : Option String) ≠ none
    ∧ (some (0 : ℚ) : Option ℚ) ≠ none
    ∧ (some (3 : ℚ) : Option ℚ) ≠ none := by decide

/-- C1 (amended): the category is 情報不足 iff the geoname is missing or
empty, the area is missing or zero, or the height is missing or zero;
and outside that case the category depends only on area, height and the
resolved thresholds: two evaluations agreeing on those agree on the
category. -/
theorem insufficient_iff_and_deterministic :
    (∀ d : FactsData,
      (evaluate_file guidelines d).kubun = "情報不足" ↔
        (d.geoname = none ∨ d.geoname = some "" ∨ d.area = none ∨ d.area = some 0
          ∨ d.height = none ∨ d.height = some 0))
    ∧ (∀ d₁ d₂ : FactsData,
        (evaluate_file guidelines d₁).kubun ≠ "情報不足" →
        (evaluate_file guidelines d₂).kubun ≠ "情報不足" →
        d₁.area = d₂.area → d₁.height = d₂.height →
        (ruleFor d₁).area_threshold = (ruleFor d₂).area_threshold →
        (ruleFor d₁).height_threshold = (ruleFor d₂).height_threshold →
        (evaluate_file guidelines d₁).kubun = (evaluate_file guidelines d₂).kubun) := by
  constructor
  · intro d
    by_cases hm : missingInfo d = []
    · have hne := (missingInfo_eq_nil_iff d).mp hm
      have hk := kubun_of_not_missing hm
      constructor
      · intro h; exact absurd h hk
      · intro h; exfalso; tauto
    · have hk := kubun_of_missing hm
      constructor
      · intro _
        by_contra hc
        push_neg at hc
        exact hm ((missingInfo_eq_nil_iff d).mpr ⟨hc.1, hc.2.1, hc.2.2.1, hc.2.2.2.1, hc.2.2.2.2.1, hc.2.2.2.2.2⟩)
      · intro _; exact hk
  · intro d₁ d₂ h1 h2 harea hheight hat hht
    have hm₁ : missingInfo d₁ = [] := by
      by_contra hm; exact h1 (kubun_of_missing hm)
    have hm₂ : missingInfo d₂ = [] := by
      by_contra hm; exact h2 (kubun_of_missing hm)
    unfold ruleFor at hat hht
    simp only [evaluate_file, hm₁, hm₂]
    simp only [ne_eq, not_true_eq_false, if_false, reduceIte]
    rw [harea, hheight, hat, hht]
    split <;> rfl

/-- C1 witness: the amended theorem applied at concrete inputs. -/
theorem insufficient_iff_and_deterministic_witness :
    (evaluate_file guidelines ⟨none, some 1, some 2⟩).kubun = "情報不足"
    ∧ (evaluate_file guidelines ⟨some "福岡県", some 600, some 1⟩).kubun
        = (evaluate_file guidelines ⟨some "北九州", some 600, some 1⟩).kubun :=
  ⟨(insufficient_iff_and_deterministic.1 ⟨none, some 1, some 2⟩).mpr (by decide),
   insufficient_iff_and_deterministic.2 ⟨some "福岡県", some 600, some 1⟩
     ⟨some "北九州", some 600, some 1⟩ (by decide) (by decide) rfl rfl (by decide) (by decide)⟩

/-- C2 (counterexample): with all three facts present and area and
height both exactly zero (strictly below the thresholds 500 and 2), the
evaluator returns 情報不足 — the very category produced for entirely
missing facts — not a distinct no_permit_required category, so the two
below-threshold categories claimed by the spec do not exist in the
code. -/
theorem zero_input_not_distinct_category :
    (evaluate_file guidelines ⟨some "福岡県", some 0, some 0⟩).kubun = "情報不足"
    ∧ (evaluate_file guidelines ⟨none, none, none⟩).kubun = "情報不足"
    ∧ (0 : ℚ) < ((fukuokaRS.area_threshold : ℚ)) ∧ (0 : ℚ) < ((fukuokaRS.height_threshold : ℚ)) := by
  decide

/-- C2 (amended): below both thresholds with all facts present and
nonzero, the evaluator returns the single merged category 不要または届出
(no permit required or notification); when area and height are both
exactly zero, it instead returns 情報不足, treating them as missing.  It
does not distinguish notification_required from no_permit_required. -/
theorem below_threshold_merged_category :
    (∀ (d : FactsData) (a h : ℚ),
      d.geoname ≠ none → d.geoname ≠ some "" →
      d.area = some a → d.height = some h →
      0 < a → 0 < h →
      a < ((ruleFor d).area_threshold : ℚ) →
      h < ((ruleFor d).height_threshold : ℚ) →
      (evaluate_file guidelines d).kubun = "不要または届出")
    ∧ (∀ g : Option String,
      (evaluate_file guidelines ⟨g, some 0, some 0⟩).kubun = "情報不足") := by
  constructor
  · intro d a h hg hg2 ha hh ha0 hh0 hat hht
    have hm : missingInfo d = [] :=
      (missingInfo_eq_nil_iff d).mpr
        ⟨hg, hg2, by simp [ha], by simp [ha, ha0.ne'], by simp [hh], by simp [hh, hh0.ne']⟩
    unfold ruleFor at hat hht
    simp only [evaluate_file, hm, ne_eq, not_true_eq_false, if_false, reduceIte]
    rw [ha, hh]
    simp only [Option.getD_some]
    rw [if_neg (by
      rintro (hc | hc)
      · exact absurd hc (not_le.mpr hat)
      · exact absurd hc (not_le.mpr hht))]
  · intro g
    apply kubun_of_missing
    simp [missingInfo]

/-- C2 witness: the amended theorem applied at concrete inputs. -/
theorem below_threshold_merged_category_witness :
    (evaluate_file guidelines ⟨some "北九州", some 100, some 1⟩).kubun = "不要または届出"
    ∧ (evaluate_file guidelines ⟨some "北九州", some 0, some 0⟩).kubun = "情報不足" :=
  ⟨below_threshold_merged_category.1 ⟨some "北九州", some 100, some 1⟩ 100 1 (by decide)
      (by decide) rfl rfl (by decide) (by decide) (by decide) (by decide),
   below_threshold_merged_category.2 (some "北九州")⟩

lemma ruleFor_cases (d : FactsData) : ruleFor d = fukuokaRS ∨ ruleFor d = omutaRS := by
  unfold ruleFor lookupRuleSet
  cases hf : List.find? (fun kv => kv.1 = resolveJurisdiction guidelines d.geoname) guidelines with
  | none => exact Or.inl rfl
  | some kv =>
    have hkv := List.mem_of_find?_eq_some hf
    simp only [guidelines, List.mem_cons, List.mem_singleton, List.not_mem_nil, or_false] at hkv
    rcases hkv with h | h <;> rw [h] <;> [exact Or.inl rfl; exact Or.inr rfl]

lemma suggestions_distinct (d : FactsData) :
    areaSuggestion (ruleFor d) ≠ heightSuggestion (ruleFor d) := by
  rcases ruleFor_cases d with h | h <;> rw [h] <;> decide

/-- C3 (counterexample): all three facts present and height 5 at least
the threshold 2, yet the evaluator returns 情報不足 instead of 許可申請,
because the present area equal to 0 is treated as missing first. -/
theorem permit_preempted_by_zero_area :
    (5 : ℚ) ≥ ((fukuokaRS.height_threshold : ℤ) : ℚ)
    ∧ (evaluate_file guidelines ⟨some "福岡県", some 0, some 5⟩).kubun = "情報不足"
    ∧ "情報不足" ≠ "許可申請" := by decide

/-- C3 (amended): for facts with geoname present and nonempty and area
and height present and nonzero, meeting either threshold (boundary
equality included) yields 許可申請; the suggestions list contains the
area-reduction suggestion iff the area threshold is met and the
height-reduction suggestion iff the height threshold is met, with the
area suggestion first when both occur, and 改善案 is their joined
rendering. -/
theorem permit_threshold_and_suggestions :
    ∀ (d : FactsData) (a h : ℚ),
      d.geoname ≠ none → d.geoname ≠ some "" →
      d.area = some a → d.height = some h → a ≠ 0 → h ≠ 0 →
      (a ≥ ((ruleFor d).area_threshold : ℚ) ∨ h ≥ ((ruleFor d).height_threshold : ℚ)) →
      (evaluate_file guidelines d).kubun = "許可申請"
      ∧ (areaSuggestion (ruleFor d) ∈ permitSuggestions (ruleFor d) a h
          ↔ a ≥ ((ruleFor d).area_threshold : ℚ))
      ∧ (heightSuggestion (ruleFor d) ∈ permitSuggestions (ruleFor d) a h
          ↔ h ≥ ((ruleFor d).height_threshold : ℚ))
      ∧ (a ≥ ((ruleFor d).area_threshold : ℚ) → h ≥ ((ruleFor d).height_threshold : ℚ) →
          permitSuggestions (ruleFor d) a h
            = [areaSuggestion (ruleFor d), heightSuggestion (ruleFor d)])
      ∧ (evaluate_file guidelines d).kaizen
          = some (String.intercalate "／" (permitSuggestions (ruleFor d) a h)) := by
  intro d a h hg hg2 ha hh ha0 hh0 hcond
  have hm : missingInfo d = [] :=
    (missingInfo_eq_nil_iff d).mpr
      ⟨hg, hg2, by simp [ha], by simp [ha, ha0], by simp [hh], by simp [hh, hh0]⟩
  have hsa : permitSuggestions (ruleFor d) a h ≠ [] := by
    rcases hcond with hc | hc <;>
      · simp only [permitSuggestions, hc, ge_iff_le, if_pos]
        split <;> simp
  have hkub : (evaluate_file guidelines d).kubun = "許可申請"
      ∧ (evaluate_file guidelines d).kaizen
        = some (String.intercalate "／" (permitSuggestions (ruleFor d) a h)) := by
    unfold ruleFor at hcond hsa
    simp only [evaluate_file, hm, ne_eq, not_true_eq_false, if_false, reduceIte]
    rw [ha, hh]
    simp only [Option.getD_some]
    rw [if_pos hcond, if_pos hsa]
    exact ⟨rfl, rfl⟩
  refine ⟨hkub.1, ?_, ?_, ?_, hkub.2⟩
  · by_cases hA : a ≥ ((ruleFor d).area_threshold : ℚ) <;>
    by_cases hH : h ≥ ((ruleFor d).height_threshold : ℚ) <;>
      simp [permitSuggestions, hA, hH, suggestions_distinct d]
  · by_cases hA : a ≥ ((ruleFor d).area_threshold : ℚ) <;>
    by_cases hH : h ≥ ((ruleFor d).height_threshold : ℚ) <;>
      simp [permitSuggestions, hA, hH, Ne.symm (suggestions_distinct d)]
  · intro hA hH
    simp [permitSuggestions, hA, hH]

/-- C3 witness: the amended theorem applied at a concrete input with the
area threshold met and the height threshold not met. -/
theorem permit_threshold_and_suggestions_witness :
    (evaluate_file guidelines ⟨some "大牟田市", some 600, some 1⟩).kubun = "許可申請"
    ∧ (areaSuggestion (ruleFor ⟨some "大牟田市", some 600, some 1⟩)
        ∈ permitSuggestions (ruleFor ⟨some "大牟田市", some 600, some 1⟩) 600 1
        ↔ (600 : ℚ) ≥ ((ruleFor ⟨some "大牟田市", some 600, some 1⟩).area_threshold : ℚ)) :=
  ⟨(permit_threshold_and_suggestions ⟨some "大牟田市", some 600, some 1⟩ 600 1 (by decide)
      (by decide) rfl rfl (by decide) (by decide) (by decide)).1,
   (permit_threshold_and_suggestions ⟨some "大牟田市", some 600, some 1⟩ 600 1 (by decide)
      (by decide) rfl rfl (by decide) (by decide) (by decide)).2.1⟩

lemma hatch_foldl_eq (ps : List (Option ℚ)) (t : ℚ) :
    ps.foldl (fun acc p => match p with | some a => acc + a | none => acc) t
      = t + (ps.filterMap id).sum := by
  induction ps generalizing t with
  | nil => simp
  | cons p ps ih =>
    cases p with
    | none => simpa using ih t
    | some a => simp [List.foldl_cons, ih (t + a), add_assoc]

lemma dxfLoop_eq (es : List DxfEntity) (t : ℚ) :
    dxfLoop t es = t + specTotalArea es := by
  induction es generalizing t with
  | nil => simp [dxfLoop, specTotalArea]
  | cons e es ih =>
    cases e with
    | hatch ps =>
      simp [dxfLoop, ih, hatch_foldl_eq, specTotalArea, qualifyingAreas, add_assoc]
    | lwpolyline c a =>
      cases c with
      | none => simp [dxfLoop, ih, specTotalArea, qualifyingAreas, polyContribution]
      | some b =>
        cases b <;> cases a <;>
          simp [dxfLoop, ih, specTotalArea, qualifyingAreas, polyContribution, add_assoc]
    | polyline c a =>
      cases c with
      | none => simp [dxfLoop, ih, specTotalArea, qualifyingAreas, polyContribution]
      | some b =>
        cases b <;> cases a <;>
          simp [dxfLoop, ih, specTotalArea, qualifyingAreas, polyContribution, add_assoc]
    | other => simp [dxfLoop, ih, specTotalArea, qualifyingAreas]

/-- C5: the DXF area is the sum of all qualifying closed regions (hatch
boundary paths that answer an area, closed polylines that answer an
area); open polylines and raising queries contribute nothing, a raising
hatch path is skipped without discarding the rest, and the result is
`None` exactly when the accumulated total is not positive. -/
theorem dxf_area_accumulation :
    (∀ es : List DxfEntity,
      (parse_dxf (some es)).2.1
        = if specTotalArea es > 0 then some (specTotalArea es) else none)
    ∧ (∀ (es : List DxfEntity) (a : Option ℚ),
        dxfLoop 0 (.lwpolyline (some false) a :: es) = dxfLoop 0 es
        ∧ dxfLoop 0 (.lwpolyline none a :: es) = dxfLoop 0 es
        ∧ dxfLoop 0 (.lwpolyline (some true) none :: es) = dxfLoop 0 es
        ∧ dxfLoop 0 (.polyline (some false) a :: es) = dxfLoop 0 es
        ∧ dxfLoop 0 (.polyline none a :: es) = dxfLoop 0 es
        ∧ dxfLoop 0 (.polyline (some true) none :: es) = dxfLoop 0 es)
    ∧ (∀ (es : List DxfEntity) (ps : List (Option ℚ)),
        dxfLoop 0 (.hatch (none :: ps) :: es) = dxfLoop 0 (.hatch ps :: es)) := by
  refine ⟨?_, ?_, ?_⟩
  · intro es
    simp only [parse_dxf, dxfLoop_eq, zero_add]
  · intro es a
    refine ⟨?_, ?_, ?_, ?_, ?_, ?_⟩ <;>
      cases a <;> simp [dxfLoop, polyContribution]
  · intro es ps
    simp [dxfLoop]

/-- C7: the end-to-end scenario geoname 大牟田市中央, area 600, height 1
with thresholds (500, 2): jurisdiction 大牟田市, category 許可申請,
improvements exactly the single area-reduction suggestion, and the
report reason contains that jurisdiction's citation (page/line reference
and permit text). -/
theorem omuta_end_to_end :
    resolveJurisdiction guidelines (some "大牟田市中央") = "大牟田市"
    ∧ (lookupRuleSet guidelines "大牟田市").area_threshold = 500
    ∧ (lookupRuleSet guidelines "大牟田市").height_threshold = 2
    ∧ (evaluate_file guidelines ⟨some "大牟田市中央", some 600, some 1⟩).kubun = "許可申請"
    ∧ permitSuggestions (lookupRuleSet guidelines "大牟田市") 600 1
        = ["造成面積を 500㎡ 未満に縮小する"]
    ∧ (evaluate_file guidelines ⟨some "大牟田市中央", some 600, some 1⟩).kaizen
        = some "造成面積を 500㎡ 未満に縮小する"
    ∧ strIn "手引きP4 L3-L8"
        (reportReason "test.pdf" "大牟田市"
          (evaluate_file guidelines ⟨some "大牟田市中央", some 600, some 1⟩)) = true
    ∧ strIn omutaRS.permit_required_text
        (reportReason "test.pdf" "大牟田市"
          (evaluate_file guidelines ⟨some "大牟田市中央", some 600, some 1⟩)) = true := by
  decide

/-- C8: the rule table is a fixed value; `evaluate_file` only reads it
(key iteration and lookups), so running the evaluation returns the
guidelines mapping unchanged for every facts record. -/
theorem guidelines_not_modified (d : FactsData) :
    (evaluate_file_run guidelines d).2 = guidelines
    ∧ evaluate_file_run guidelines d = (evaluate_file guidelines d, guidelines) :=
  ⟨rfl, rfl⟩

/-- C9: the height pattern `([\d,.]+)\s*m` also matches the `m` of the
ASCII area unit `m2`, with no height label required: on a text whose
only number-unit mention is the area figure "600 m2", the height
extractor returns that figure, 600. -/
theorem height_reads_ascii_area_unit :
    extract_height_from_text "600 m2" = some 600
    ∧ extract_area_from_text "600 m2" = some 600 := by decide

/-- C6: extraction is fail-soft.  Exceptions of the fallible
sub-operations are modelled as `Option`: a failed regex search, a failed
`float()` parse, or an unreadable PDF/DXF document each yield `None` for
the affected fields instead of propagating an error; the extractors are
total functions. -/
theorem extraction_fail_soft :
    (∀ t : String, searchAreaNum t.data = none → extract_area_from_text t = none)
    ∧ (∀ (t : String) (g : List Char), searchAreaNum t.data = some g →
        pyFloat (g.filter (fun c => c ≠ ',')) = none → extract_area_from_text t = none)
    ∧ (∀ t : String, searchHeightNum t.data = none → extract_height_from_text t = none)
    ∧ (∀ (t : String) (g : List Char), searchHeightNum t.data = some g →
        pyFloat (g.filter (fun c => c ≠ ',')) = none → extract_height_from_text t = none)
    ∧ (∀ t : String,
        searchLabeled "地名".data t.data = none →
        searchLabeled "所在地".data t.data = none →
        searchLabeled "対象地".data t.data = none →
        cjkScan t.data = none →
        extract_geoname_from_text t = none)
    ∧ parse_pdf none = (none, none, none)
    ∧ parse_dxf none = (none, none, none) := by
  refine ⟨?_, ?_, ?_, ?_, ?_, rfl, rfl⟩
  · intro t h; simp [extract_area_from_text, h]
  · intro t g hg hf
    simp only [ne_eq, decide_not] at hf
    simp [extract_area_from_text, hg, hf]
  · intro t h; simp [extract_height_from_text, h]
  · intro t g hg hf
    simp only [ne_eq, decide_not] at hf
    simp [extract_height_from_text, hg, hf]
  · intro t h1 h2 h3 h4; simp [extract_geoname_from_text, h1, h2, h3, h4]

/-- C6 witness: the fail-soft theorem applied at concrete inputs — a
text with no number-unit pattern, a text whose matched group ".." is not
a parsable float, and a text with no geoname pattern at all. -/
theorem extraction_fail_soft_witness :
    extract_area_from_text "abc" = none
    ∧ extract_area_from_text "..㎡" = none
    ∧ extract_height_from_text "abc" = none
    ∧ extract_height_from_text "...m" = none
    ∧ extract_geoname_from_text "123" = none :=
  ⟨extraction_fail_soft.1 "abc" (by decide),
   extraction_fail_soft.2.1 "..㎡" ['.', '.'] (by decide) (by decide),
   extraction_fail_soft.2.2.1 "abc" (by decide),
   extraction_fail_soft.2.2.2.1 "...m" ['.', '.', '.'] (by decide) (by decide),
   extraction_fail_soft.2.2.2.2.1 "123" (by decide) (by decide) (by decide) (by decide)⟩

lemma cjkScan_eq_specCjk (cs : List Char) : cjkScan cs = specCjk cs := by
  induction cs with
  | nil => rfl
  | cons c cs ih =>
    simp only [cjkScan, specCjk, allSuffixes, List.find?]
    cases hc : isCJKCh c with
    | false =>
      simp only [goodStart, hc, Bool.false_and]
      exact ih
    | true =>
      cases hm : (cs.takeWhile isCJKCh).contains '市' with
      | false =>
        simp only [goodStart, hc, hm, Bool.true_and]
        exact ih
      | true =>
        simp only [goodStart, hc, hm, Bool.true_and, Option.map_some]
        simp [List.takeWhile, hc]

lemma not_space_of_cjk {c : Char} (h : isCJKCh c = true) : isSpaceCh c = false := by
  simp only [isCJKCh, Bool.and_eq_true, decide_eq_true_eq] at h
  simp only [isSpaceCh, Bool.and_eq_false_iff]
  left
  simp only [decide_eq_false_iff_not, not_le]
  omega

lemma dropWhile_of_no_space {l : List Char} (h : ∀ c ∈ l, isSpaceCh c = false) :
    l.dropWhile isSpaceCh = l := by
  cases l with
  | nil => rfl
  | cons x xs => simp [List.dropWhile, h x (by simp)]

lemma pyStrip_of_no_space {l : List Char} (h : ∀ c ∈ l, isSpaceCh c = false) :
    pyStrip l = l := by
  unfold pyStrip
  rw [dropWhile_of_no_space h, dropWhile_of_no_space (by simpa using h), List.reverse_reverse]

/-- C10 (counterexample): "市" (and likewise "市山") is a run of CJK
ideographs containing 市, and no labelled pattern matches, yet the
extractor returns none: the fallback pattern `[一-鿿]+市[一-鿿]*`
requires at least one CJK ideograph before 市, so a run whose only 市 is
its first character never matches. -/
theorem cjk_fallback_not_any_run :
    extract_geoname_from_text "市" = none
    ∧ extract_geoname_from_text "市山" = none
    ∧ isCJKCh '市' = true
    ∧ isCJKCh '山' = true := by decide

/-- C10 (amended): when no labelled geoname pattern matches, the
extractor falls back to the leftmost suffix of a CJK-ideograph run that
contains 市 after its first character, returning that suffix up to the
end of its CJK run, and returns none exactly when no such position
exists. -/
theorem geoname_fallback_first_qualifying_run (t : String)
    (h1 : searchLabeled "地名".data t.data = none)
    (h2 : searchLabeled "所在地".data t.data = none)
    (h3 : searchLabeled "対象地".data t.data = none) :
    extract_geoname_from_text t = (specCjk t.data).map (fun r => String.mk r) := by
  simp only [extract_geoname_from_text, h1, h2, h3, cjkScan_eq_specCjk]
  cases hs : specCjk t.data with
  | none => rfl
  | some r =>
    have hr : ∀ c ∈ r, isCJKCh c = true := by
      intro c hc
      unfold specCjk at hs
      cases hf : (allSuffixes t.data).find? goodStart with
      | none => rw [hf] at hs; simp at hs
      | some s =>
        rw [hf] at hs
        have hsr : s.takeWhile isCJKCh = r := by simpa using hs
        exact List.mem_takeWhile_imp (hsr ▸ hc)
    simp [pyStrip_of_no_space (fun c hc => not_space_of_cjk (hr c hc))]

/-- C10 witness: the amended theorem applied at a text whose labelled
patterns all fail and whose fallback finds 大牟田市. -/
theorem geoname_fallback_first_qualifying_run_witness :
    searchLabeled "地名".data "これは大牟田市です".data = none
    ∧ extract_geoname_from_text "これは大牟田市です"
        = (specCjk "これは大牟田市です".data).map (fun r => String.mk r) :=
  ⟨by decide,
   geoname_fallback_first_qualifying_run "これは大牟田市です" (by decide) (by decide) (by decide)⟩
